import Mathlib

/-!
Verification development for the tensor/operator IR and layout-propagation
rewrite engine of the tflite2onnx converter.

The definitions below are a shallow embedding of `tflite2onnx/tensor.py` and
`tflite2onnx/op/reshape.py`.  Python objects linked by mutable references are
modelled as arenas (lists indexed by numeric ids) inside an explicit state
record, so that reference identity becomes id equality and in-place mutation
becomes `List.set`.  Fallible code (assertions, raised exceptions, attribute
errors on `None`) is modelled with `Except Err`.

Parts of the repository that the two source files use but that are not part
of the sources here (the `Layout` class, the operator base class with
`parseInput` / `replaceInput` / lifecycle status, the `Transpose` operator
class, and the tensor factory's `getWithRef`) are modelled from the
specification; each such definition carries a doc comment starting with
`Modelled from the spec:`.
-/

/-- Error outcomes of the Python code: failed `assert` statements, raised
`ValueError`, and the runtime errors Python produces when `None` is
subscripted / measured (`TypeError`), when a missing attribute is accessed
(`AttributeError`) or when a list index is out of range (`IndexError`). -/
inductive Err where
  | assertionError
  | valueError
  | typeError
  | attributeError
  | indexError
deriving DecidableEq

/-- Element types of the ONNX side (`TensorProto` dtype constants), restricted
to the types the converter's dtype maps mention. -/
inductive DType where
  | float32
  | int32
  | int64
  | uint8
deriving DecidableEq

/-- Modelled from the spec: the external dtype map `DTYPE_TFLITE2ONNX` used by
`Tensor.parse` (it lives in the external `shrub.mapping` collaborator).  It
maps the source format's element-type enumeration (TFLite `TensorType` codes)
to the target enumeration, and is a map whose misses are fatal. -/
def DTYPE_TFLITE2ONNX : Nat → Option DType
  | 0 => some .float32
  | 2 => some .int32
  | 3 => some .uint8
  | 4 => some .int64
  | _ => none

/-- The dtypes accepted by `getData` in `tensor.py`
(`assert(dtype in ['int32', 'float32', 'uint8'])`). -/
def getDataDtypeOk (dt : DType) : Bool :=
  dt = DType.int32 ∨ dt = DType.float32 ∨ dt = DType.uint8

/-- Modelled from the spec: the lifecycle state of the shared base class
(`tflite2onnx/common.py`, not part of the sources here):
Inited → Parsed → Transformed → Converted, monotonic. -/
inductive Status where
  | Inited
  | Parsed
  | Transformed
  | Converted
deriving DecidableEq

/-- Modelled from the spec: the `status.parsed` predicate of the base class —
true once the entity has reached the Parsed state (transitions are monotonic,
so any state from Parsed on counts as parsed). -/
def Status.parsed : Status → Bool
  | .Inited => false
  | _ => true

/-- Modelled from the spec: the `status.converted` predicate of the base
class — true exactly in the final Converted state. -/
def Status.converted : Status → Bool
  | .Converted => true
  | _ => false

/-- Modelled from the spec: the `Layout` value type (`tflite2onnx/layout.py`,
not part of the sources here): a pair of axis-label sequences (axis labels
are modelled as natural numbers). -/
structure Layout where
  source : List Nat
  target : List Nat
deriving DecidableEq

/-- Modelled from the spec: `Layout.perm`, the permutation mapping target
axis positions to source axis positions: entry `k` is the position in
`source` of the axis label `target[k]`.  The direction is fixed by the
worked example in the `Reshape` source (`perm: (0, 2, 3, 1)` for the
NCHW-to-NHWC conversion layout). -/
def Layout.perm (l : Layout) : List Nat :=
  l.target.map (fun a => l.source.indexOf a)

/-- Modelled from the spec: `Layout.transform`, reordering a sequence per
`perm` (`output[k] = input[perm[k]]`).  It is applied both to shape vectors
and, in the fake-broadcasting path, to the value list of a shape tensor. -/
def Layout.transform [Inhabited α] (l : Layout) (input : List α) : List α :=
  l.perm.map (fun p => input.getD p default)

/-- Quantization parameters as exposed by the decoder collaborator
(`tensor.Quantization()`): scale and zero-point arrays. -/
structure TfQuant where
  scale : List Rat
  zero_point : List Int
deriving DecidableEq

/-- A source-model tensor as exposed by the decoder collaborator
(`graph.Tensors(index)`): name, declared shape, element-type code,
optional quantization, and the raw buffer decoded as numbers
(the composition of `t.Buffer()` / `model.Buffers(bi).DataAsNumpy()` /
`np.frombuffer` in `getData`). -/
structure TfTensor where
  name : String
  shape : List Nat
  typ : Nat
  quant : Option TfQuant
  buffer : List Int
deriving DecidableEq

/-- A source-model operator as exposed by the decoder collaborator:
builtin opcode and the tensor indices of its inputs and outputs. -/
structure TfOp where
  opcode : Nat
  inputs : List Nat
  outputs : List Nat
deriving DecidableEq

/-- The TFLite builtin opcode of RESHAPE. -/
def RESHAPE_CODE : Nat := 22

/-- A subgraph handle of the decoder collaborator: the indexed family of
source tensors (`graph.Tensors`). -/
structure Graph where
  tensors : List TfTensor
deriving DecidableEq

/-- The serialized target-format tensor node built by `Tensor.convert`
through the encoder collaborator (`helper.make_tensor` /
`helper.make_tensor_value_info`). -/
structure OnnxTensor where
  name : String
  dtype : DType
  shape : List Nat
  data : Option (List Int)
deriving DecidableEq

/-- The `Tensor` entity of `tensor.py`.  Object references to producer and
consumer operators are modelled as numeric ids into the operator arena of
the enclosing state; the `tflite` handle of the decoder is embedded
directly.  Numeric buffers are modelled as integer lists (the dtype claims
under verification only involve integer tensors). -/
structure Tensor where
  tflite : Option TfTensor
  is_initializer : Bool
  name : String
  shape : List Nat
  dtype : Option DType
  scale : Rat
  zero_point : Int
  data : Option (List Int)
  layout : Option Layout
  producers : List Nat
  consumers : List Nat
  status : Status
  onnx : Option OnnxTensor
deriving DecidableEq

/-- `Tensor.__init__`: the constructor of `tensor.py` (defaults for shape,
dtype, quantization, data, edges; the given layout and initializer flag;
ends Inited).  The `name` default comes from the base-class constructor
(modelled from the spec as the empty string). -/
def Tensor.init (tflite : Option TfTensor) (layout : Option Layout)
    (is_initializer : Bool) : Tensor :=
  { tflite := tflite
    is_initializer := is_initializer
    name := ""
    shape := []
    dtype := none
    scale := 1
    zero_point := 127
    data := none
    layout := layout
    producers := []
    consumers := []
    status := .Inited
    onnx := none }

/-- `Tensor.addProducer` of `tensor.py`: append the operator unless already
present. -/
def Tensor.addProducer (t : Tensor) (opId : Nat) : Tensor :=
  if opId ∈ t.producers then t else { t with producers := t.producers ++ [opId] }

/-- `Tensor.addConsumer` of `tensor.py`: append the operator unless already
present. -/
def Tensor.addConsumer (t : Tensor) (opId : Nat) : Tensor :=
  if opId ∈ t.consumers then t else { t with consumers := t.consumers ++ [opId] }

/-- Replacement of one id by another throughout a list: the in-place edge
rewiring used by `replaceConsumer` / `replaceProducer` on tensors and
`replaceInput` / `replaceOutput` on operators. -/
def replaceId (old new : Nat) (l : List Nat) : List Nat :=
  l.map (fun x => if x = old then new else x)

/-- `Tensor.isScalar` of `tensor.py`:
`(self.layout is None) and (len(self.shape) == 0) and (len(self.data) == 1)`.
Python's `and` short-circuits, so `len(self.data)` is only evaluated once the
first two conjuncts hold; taking `len` of an absent (`None`) buffer raises
`TypeError`. -/
def Tensor.isScalar (t : Tensor) : Except Err Bool :=
  match t.layout with
  | some _ => .ok false
  | none =>
    if t.shape.length = 0 then
      match t.data with
      | none => .error .typeError
      | some d => .ok (d.length = 1)
    else .ok false

/-- `Tensor.parse` of `tensor.py`: no-op when already parsed; otherwise reads
name, shape, dtype (fatal if the source type is unmapped or dtype was already
assigned), single-element quantization parameters (fatal if multi-element),
and, for initializers, the decoded buffer (through `getData`, whose dtype
assertion is included); ends Parsed. -/
def Tensor.parse (t : Tensor) : Except Err Tensor :=
  if t.status.parsed then .ok t
  else
    match t.tflite with
    | none => .error .attributeError
    | some tf =>
      let t1 := { t with name := tf.name, shape := tf.shape }
      match DTYPE_TFLITE2ONNX tf.typ with
      | none => .error .assertionError
      | some dt =>
        match t1.dtype with
        | some _ => .error .assertionError
        | none =>
          let t2 := { t1 with dtype := some dt }
          match tf.quant with
          | some q =>
            if q.scale.length = 1 ∧ q.zero_point.length = 1 then
              let t3 := { t2 with scale := q.scale.getD 0 1,
                                  zero_point := q.zero_point.getD 0 127 }
              if t3.is_initializer then
                if getDataDtypeOk dt then
                  .ok { t3 with data := some tf.buffer, status := .Parsed }
                else .error .assertionError
              else .ok { t3 with status := .Parsed }
            else .error .assertionError
          | none =>
            if t2.is_initializer then
              if getDataDtypeOk dt then
                .ok { t2 with data := some tf.buffer, status := .Parsed }
              else .error .assertionError
            else .ok { t2 with status := .Parsed }

/-- Row-major element count of a shape (the value of `np.prod` over the
dimension list). -/
def shapeProd (shape : List Nat) : Nat := shape.foldl (· * ·) 1

/-- Row-major multi-index of a flat position in a dense array of the given
shape. -/
def unflattenIdx : List Nat → Nat → List Nat
  | [], _ => []
  | _ :: ds, p => p / shapeProd ds :: unflattenIdx ds (p % shapeProd ds)

/-- Row-major flat position of a multi-index in a dense array of the given
shape. -/
def flattenIdx (shape idx : List Nat) : Nat :=
  (shape.zip idx).foldl (fun acc di => acc * di.1 + di.2) 0

/-- Numpy semantics of `data.reshape(shape).transpose(perm).flatten()` on a
flat row-major buffer: element `q` of the result is the element of `data`
whose multi-index `i` satisfies `i[perm[k]] = j[k]` for the multi-index `j`
of `q` in the permuted shape. -/
def transformData (shape perm : List Nat) (data : List Int) : List Int :=
  let newShape := perm.map (fun p => shape.getD p 0)
  (List.range (shapeProd newShape)).map (fun q =>
    let j := unflattenIdx newShape q
    let i := (List.range shape.length).map (fun a => j.getD (perm.indexOf a) 0)
    data.getD (flattenIdx shape i) 0)

/-- `Tensor.transform` of `tensor.py`: asserts Parsed and a non-null layout,
then re-applies the layout permutation to the shape — and, for initializers,
to the data buffer via reshape/transpose/flatten (the buffer permutation uses
the pre-update shape, as in the source).  There is no status guard and no
status advance. -/
def Tensor.transform (t : Tensor) : Except Err Tensor :=
  if t.status.parsed then
    match t.layout with
    | none => .error .assertionError
    | some lay =>
      if t.is_initializer then
        match t.data with
        | none => .error .attributeError
        | some d =>
          .ok { t with shape := lay.transform t.shape,
                       data := some (transformData t.shape lay.perm d) }
      else .ok { t with shape := lay.transform t.shape }
  else .error .assertionError

/-- `Tensor.convert` of `tensor.py`: no-op when already converted; otherwise
builds the target-format node through the encoder collaborator — for
initializers the validator checks data-length/shape consistency (modelled at
the interface per the spec) — and ends Converted. -/
def Tensor.convert (t : Tensor) : Except Err Tensor :=
  if t.status.converted then .ok t
  else
    if t.is_initializer then
      match t.dtype, t.data with
      | some dt, some d =>
        if d.length = shapeProd t.shape then
          .ok { t with onnx := some { name := t.name, dtype := dt,
                                      shape := t.shape, data := some d },
                       status := .Converted }
        else .error .valueError
      | _, _ => .error .typeError
    else
      match t.dtype with
      | some dt =>
        .ok { t with onnx := some { name := t.name, dtype := dt,
                                    shape := t.shape, data := none },
                     status := .Converted }
      | none => .error .typeError

/-- Operator-kind tags (the two operator classes involved in the rewrite under
verification). -/
inductive OpType where
  | Reshape
  | Transpose
deriving DecidableEq

/-- The operator entity: the shared base-class fields are modelled from the
spec (ordered input/output tensor-id lists, the `pre`/`post` lists of
operator ids inserted immediately before/after during rewriting, lifecycle
status, name, source index with `-1` for synthetic operators), together with
the `attrs['perm']` entry used by the layout-conversion operator and the
`forFakeBroadcasting` flag of the `Reshape` class. -/
structure Operator where
  index : Int
  type : OpType
  tflite : Option TfOp
  inputs : List Nat
  outputs : List Nat
  attrs_perm : Option (List Nat)
  pre : List Nat
  post : List Nat
  name : String
  status : Status
  forFakeBroadcasting : Bool
deriving DecidableEq

/-- Modelled from the spec: the constructor of the synthetic layout-conversion
operator class (`tflite2onnx/op/transpose.py`, not part of the sources here),
as invoked with source index `-1`: a fresh Transpose operator in the Inited
state with empty edges and attributes. -/
def Transpose.init : Operator :=
  { index := -1
    type := .Transpose
    tflite := none
    inputs := []
    outputs := []
    attrs_perm := none
    pre := []
    post := []
    name := ""
    status := .Inited
    forFakeBroadcasting := false }

/-- The mutable conversion state anchoring the object graph: the tensor arena,
the operator arena, and the per-subgraph name-to-tensor registry of
`tensor.py` (`registery`). -/
structure GState where
  tensors : List Tensor
  ops : List Operator
  registery : List (String × Nat)
deriving DecidableEq

/-- Association lookup in the registry (Python `name in registery` /
`registery[name]`). -/
def lookupReg : List (String × Nat) → String → Option Nat
  | [], _ => none
  | (k, v) :: rest, name => if k = name then some v else lookupReg rest name

/-- The module-level `get` of `tensor.py`: resolve the source tensor name at
`index`; if the name is absent from the registry, construct a new Tensor
(Inited) with the given layout and initializer flag and store it; return the
stored instance.  On a cache hit the stored instance is returned and the
`layout` / `is_initializer` arguments are not consulted. -/
def tensor.get (s : GState) (g : Graph) (index : Nat) (layout : Option Layout)
    (is_initializer : Bool) : Except Err (GState × Nat) :=
  match g.tensors[index]? with
  | none => .error .indexError
  | some tf =>
    match lookupReg s.registery tf.name with
    | some tid => .ok (s, tid)
    | none =>
      let t := Tensor.init (some tf) layout is_initializer
      let tid := s.tensors.length
      .ok ({ s with tensors := s.tensors ++ [t],
                    registery := (tf.name, tid) :: s.registery }, tid)

/-- Modelled from the spec: the tensor factory's `getWithRef` (not part of the
sources here): create — or return the cached tensor of — a new, differently
named tensor seeded from an existing tensor's ownership context (here: its
dtype and quantization parameters) but with independent shape and data, used
to synthesize tensors for inserted operators; the result is registered under
the new name. -/
def getWithRef (s : GState) (refId : Nat) (name : String)
    (is_initializer : Bool) : Except Err (GState × Nat) :=
  match s.tensors[refId]? with
  | none => .error .indexError
  | some ref =>
    match lookupReg s.registery name with
    | some tid => .ok (s, tid)
    | none =>
      let t := { Tensor.init none none is_initializer with
                   name := name
                   dtype := ref.dtype
                   scale := ref.scale
                   zero_point := ref.zero_point }
      let tid := s.tensors.length
      .ok ({ s with tensors := s.tensors ++ [t],
                    registery := (name, tid) :: s.registery }, tid)

/-- Modelled from the spec: `Operator.parseInput` of the operator base class
(not part of the sources here): resolve the source tensor referenced at the
given operand position through the registry, parse it, register this operator
as its consumer, append it to the operator's ordered inputs, and return it. -/
def parseInput (s : GState) (selfId : Nat) (g : Graph) (tfop : TfOp)
    (pos : Nat) : Except Err (GState × Nat) :=
  match tfop.inputs[pos]? with
  | none => .error .indexError
  | some ti =>
    match tensor.get s g ti none false with
    | .error e => .error e
    | .ok (s1, tid) =>
      match s1.tensors[tid]? with
      | none => .error .indexError
      | some t =>
        match t.parse with
        | .error e => .error e
        | .ok tp =>
          let s2 := { s1 with tensors := s1.tensors.set tid (tp.addConsumer selfId) }
          match s2.ops[selfId]? with
          | none => .error .indexError
          | some sf =>
            let sf2 := { sf with inputs := sf.inputs ++ [tid] }
            .ok ({ s2 with ops := s2.ops.set selfId sf2 }, tid)

/-- Modelled from the spec: `Operator.parseOutput` of the operator base class
(not part of the sources here): the mirror of `parseInput` on the output
side, registering this operator as producer. -/
def parseOutput (s : GState) (selfId : Nat) (g : Graph) (tfop : TfOp)
    (pos : Nat) : Except Err (GState × Nat) :=
  match tfop.outputs[pos]? with
  | none => .error .indexError
  | some ti =>
    match tensor.get s g ti none false with
    | .error e => .error e
    | .ok (s1, tid) =>
      match s1.tensors[tid]? with
      | none => .error .indexError
      | some t =>
        match t.parse with
        | .error e => .error e
        | .ok tp =>
          let s2 := { s1 with tensors := s1.tensors.set tid (tp.addProducer selfId) }
          match s2.ops[selfId]? with
          | none => .error .indexError
          | some sf =>
            let sf2 := { sf with outputs := sf.outputs ++ [tid] }
            .ok ({ s2 with ops := s2.ops.set selfId sf2 }, tid)

/-- The widening of the shape tensor's values from the source format's 32-bit
integers to the target's 64-bit integers (`st.data.astype('int64')`).  The
widening cast is value-preserving on every 32-bit integer, so on the numeric
contents it is the identity. -/
def astype_int64 (data : List Int) : List Int := data

namespace Reshape

/-- `Reshape.parse` of `op/reshape.py`: validate the opcode and the operand
arities (at least one input, exactly one output); resolve input 0; when a
second input is present, resolve it, coerce its dtype to int64 (a direct
field assignment with no guard), re-cast its data when it is an initializer
(fatal when an initializer has no buffer, as `None.astype` would be), and,
when its declared shape has rank above one, flatten the shape to rank one
only when it is an initializer (the non-initializer case is merely logged);
resolve output 0; end Parsed. -/
def parse (s : GState) (selfId : Nat) (g : Graph) : Except Err GState :=
  match s.ops[selfId]? with
  | none => .error .indexError
  | some sf =>
  match sf.tflite with
  | none => .error .attributeError
  | some tfop =>
  if tfop.opcode = RESHAPE_CODE then
  if 1 ≤ tfop.inputs.length then
  if tfop.outputs.length = 1 then
    match parseInput s selfId g tfop 0 with
    | .error e => .error e
    | .ok (s1, _) =>
      let step2 : Except Err GState :=
        if tfop.inputs.length = 2 then
          match parseInput s1 selfId g tfop 1 with
          | .error e => .error e
          | .ok (s2, stId) =>
            match s2.tensors[stId]? with
            | none => .error .indexError
            | some st =>
              let st := { st with dtype := some .int64 }
              match (if st.is_initializer then
                       match st.data with
                       | none => .error .attributeError
                       | some d => .ok { st with data := some (astype_int64 d) }
                     else .ok st : Except Err Tensor) with
              | .error e => .error e
              | .ok st =>
                let st :=
                  if 1 < st.shape.length then
                    if st.is_initializer then
                      { st with shape := [shapeProd st.shape] }
                    else st
                  else st
                Except.ok { s2 with tensors := s2.tensors.set stId st }
        else .ok s1
      match step2 with
      | .error e => .error e
      | .ok s3 =>
        match parseOutput s3 selfId g tfop 0 with
        | .error e => .error e
        | .ok (s4, _) =>
          match s4.ops[selfId]? with
          | none => .error .indexError
          | some sf4 =>
            let sf5 := { sf4 with status := Status.Parsed }
            .ok { s4 with ops := s4.ops.set selfId sf5 }
  else .error .assertionError
  else .error .assertionError
  else .error .assertionError

/-- `Reshape.preserveInputSpatialSemantic` of `op/reshape.py`: synthesize the
`TFLITE2ONNX_Transposed_`-named tensor from the original input, give it the
shape transformed by the exchanged (source/target swapped) layout and mark it
Parsed, create a synthetic Transpose whose `attrs['perm']` is the exchanged
layout's permutation, rewire the edges (the original input's consumer edge is
moved from this operator to the Transpose, this operator's input reference is
replaced by the synthetic tensor), mark the Transpose Parsed and append it to
`pre`.  The in-place object mutations of the source are rendered as
sequential arena updates with re-reads between them. -/
def preserveInputSpatialSemantic (s : GState) (selfId : Nat) :
    Except Err GState :=
  match s.ops[selfId]? with
  | none => .error .indexError
  | some sf =>
  if sf.status.parsed then
  match sf.inputs[0]? with
  | none => .error .indexError
  | some toTId =>
  match s.tensors[toTId]? with
  | none => .error .indexError
  | some toT0 =>
  match getWithRef s toTId ("TFLITE2ONNX_Transposed_" ++ toT0.name) true with
  | .error e => .error e
  | .ok (s1, trId) =>
  match toT0.layout with
  | none => .error .attributeError
  | some lay0 =>
  let layout : Layout := { source := lay0.target, target := lay0.source }
  let transOpId := s1.ops.length
  match s1.tensors[trId]? with
  | none => .error .indexError
  | some tr1 =>
  let tr2 := { tr1 with shape := layout.transform toT0.shape, status := Status.Parsed }
  let s2 := { s1 with tensors := s1.tensors.set trId tr2 }
  let trans0 := { Transpose.init with attrs_perm := some layout.perm,
                                      inputs := [toTId] }
  match s2.tensors[toTId]? with
  | none => .error .indexError
  | some toT2 =>
  let toT3 := { toT2 with consumers := replaceId selfId transOpId toT2.consumers }
  let s3 := { s2 with tensors := s2.tensors.set toTId toT3 }
  match s3.ops[selfId]? with
  | none => .error .indexError
  | some sf3 =>
  let sf4 := { sf3 with inputs := replaceId toTId trId sf3.inputs }
  let s4 := { s3 with ops := s3.ops.set selfId sf4 }
  let trans1 := { trans0 with outputs := [trId] }
  match s4.tensors[trId]? with
  | none => .error .indexError
  | some tr4 =>
  let s5 := { s4 with tensors := s4.tensors.set trId ((tr4.addProducer transOpId).addConsumer selfId) }
  let trans2 := { trans1 with status := .Parsed }
  match s5.ops[selfId]? with
  | none => .error .indexError
  | some sf5 =>
  let sf6 := { sf5 with pre := sf5.pre ++ [transOpId] }
  .ok { s5 with ops := (s5.ops.set selfId sf6) ++ [trans2] }
  else .error .assertionError

/-- `Reshape.preserveOutputSpatialSemantic` of `op/reshape.py`: the output
side mirror — synthesize the `TFLITE2ONNX_ToTranspose_`-named tensor, give it
the shape transformed by the exchanged layout and mark it Parsed, create a
synthetic Transpose whose `attrs['perm']` is the original output layout's
permutation, splice it between this operator and the original output
(producer edge moved, output reference replaced), mark it Parsed, rename it
with the `TFLITE2ONNX_Transpose_` prefix, and append it to `post`. -/
def preserveOutputSpatialSemantic (s : GState) (selfId : Nat) :
    Except Err GState :=
  match s.ops[selfId]? with
  | none => .error .indexError
  | some sf =>
  if sf.status.parsed then
  match sf.outputs[0]? with
  | none => .error .indexError
  | some oId =>
  match s.tensors[oId]? with
  | none => .error .indexError
  | some o0 =>
  match getWithRef s oId ("TFLITE2ONNX_ToTranspose_" ++ o0.name) true with
  | .error e => .error e
  | .ok (s1, ttId) =>
  match o0.layout with
  | none => .error .attributeError
  | some lay0 =>
  let layout : Layout := { source := lay0.target, target := lay0.source }
  let transOpId := s1.ops.length
  match s1.tensors[ttId]? with
  | none => .error .indexError
  | some tt1 =>
  let tt2 := { tt1 with shape := layout.transform o0.shape, status := Status.Parsed }
  let s2 := { s1 with tensors := s1.tensors.set ttId tt2 }
  let trans0 := { Transpose.init with attrs_perm := some lay0.perm,
                                      inputs := [ttId] }
  match s2.tensors[oId]? with
  | none => .error .indexError
  | some o2 =>
  let o3 := { o2 with producers := replaceId selfId transOpId o2.producers }
  let s3 := { s2 with tensors := s2.tensors.set oId o3 }
  match s3.ops[selfId]? with
  | none => .error .indexError
  | some sf3 =>
  let sf4 := { sf3 with outputs := replaceId oId ttId sf3.outputs }
  let s4 := { s3 with ops := s3.ops.set selfId sf4 }
  let trans1 := { trans0 with outputs := [oId] }
  match s4.tensors[ttId]? with
  | none => .error .indexError
  | some tt4 =>
  let s5 := { s4 with tensors := s4.tensors.set ttId ((tt4.addProducer selfId).addConsumer transOpId) }
  let trans2 := { trans1 with status := .Parsed,
                              name := "TFLITE2ONNX_Transpose_" ++ o0.name }
  match s5.ops[selfId]? with
  | none => .error .indexError
  | some sf5 =>
  let sf6 := { sf5 with post := sf5.post ++ [transOpId] }
  .ok { s5 with ops := (s5.ops.set selfId sf6) ++ [trans2] }
  else .error .assertionError

/-- The fake-broadcasting arm of `Reshape.transform`: assert that the input
and output ranks differ, fetch the secondary shape tensor (`inputs[1]`), fail
with `ValueError` when the output declares no layout, and otherwise permute
the values inside the shape tensor's buffer with the output's layout.  No
operator is created and no edge is rewired. -/
def fakeBroadcastRewrite (s : GState) (sf : Operator) (iId oId : Nat) :
    Except Err GState :=
  match s.tensors[iId]?, s.tensors[oId]? with
  | some iT, some oT =>
    if iT.shape.length = oT.shape.length then .error .assertionError
    else
      match sf.inputs[1]? with
      | none => .error .indexError
      | some stId =>
        match oT.layout with
        | none => .error .valueError
        | some lay =>
          match s.tensors[stId]? with
          | none => .error .indexError
          | some st =>
            match st.data with
            | none => .error .typeError
            | some d =>
              let st2 := { st with data := some (lay.transform d) }
              .ok { s with tensors := s.tensors.set stId st2 }
  | _, _ => .error .indexError

/-- The splice arm of `Reshape.transform`: independently of one another,
insert a Transpose before this operator when the input tensor declares a
layout and after it when the output tensor declares one. -/
def spliceRewrite (s : GState) (selfId iId oId : Nat) : Except Err GState :=
  match s.tensors[iId]?, s.tensors[oId]? with
  | some iT, some oT =>
    match (if iT.layout.isSome then preserveInputSpatialSemantic s selfId
           else .ok s : Except Err GState) with
    | .error e => .error e
    | .ok s1 =>
      if oT.layout.isSome then preserveOutputSpatialSemantic s1 selfId
      else .ok s1
  | _, _ => .error .indexError

/-- `Reshape.transform` of `op/reshape.py`: read the first input and the
output; dispatch on `forFakeBroadcasting` — the value-permuting arm and the
Transpose-splice arm are the two branches of one conditional and therefore
mutually exclusive. -/
def transform (s : GState) (selfId : Nat) : Except Err GState :=
  match s.ops[selfId]? with
  | none => .error .indexError
  | some sf =>
  match sf.inputs[0]? with
  | none => .error .indexError
  | some iId =>
  match sf.outputs[0]? with
  | none => .error .indexError
  | some oId =>
  if sf.forFakeBroadcasting then fakeBroadcastRewrite s sf iId oId
  else spliceRewrite s selfId iId oId

end Reshape

/-! ## Concrete states used to instantiate the theorems -/

instance : Inhabited GState := ⟨⟨[], [], []⟩⟩

/-- Extract the success state of a rewrite (used only to name concrete
results of runs in closed statements). -/
def okState : Except Err GState → GState
  | .ok s => s
  | .error _ => default

/-- The channel-last to channel-first layout (NHWC and NCHW encoded as the
axis-label lists `[0,1,2,3]` and `[0,3,1,2]`). -/
def exLayout : Layout := { source := [0, 1, 2, 3], target := [0, 3, 1, 2] }

/-- A parsed non-initializer tensor. -/
def exParsedT : Tensor :=
  { Tensor.init none none false with
      name := "p", shape := [2, 3], dtype := some .float32, status := .Parsed }

/-- A converted tensor. -/
def exConvertedT : Tensor :=
  { Tensor.init none none false with name := "c", status := .Converted }

/-- A parsed initializer tensor with a two-axis layout and a dense buffer. -/
def exInitT : Tensor :=
  { Tensor.init none (some { source := [0, 1], target := [1, 0] }) true with
      name := "w", shape := [2, 3], dtype := some .int32,
      data := some [1, 2, 3, 4, 5, 6], status := .Parsed }

/-- A scalar tensor: no layout, empty shape, one-element buffer. -/
def exScalarT : Tensor :=
  { Tensor.init none none true with name := "s", data := some [5] }

/-- A non-initializer tensor with non-empty shape and absent data. -/
def exVecT : Tensor :=
  { Tensor.init none none false with name := "v", shape := [2] }

/-- A non-initializer tensor with empty shape and absent data. -/
def exEmptyT : Tensor := { Tensor.init none none false with name := "e" }

/-- A source tensor for the registry runs. -/
def exTf : TfTensor := { name := "x", shape := [4], typ := 2, quant := none, buffer := [] }

/-- A one-tensor subgraph handle. -/
def exGraph : Graph := { tensors := [exTf] }

/-- The empty conversion state. -/
def exEmptyState : GState := { tensors := [], ops := [], registery := [] }

/-- The state after the first registry lookup of `exTf` from the empty
state. -/
def exStateAfterGet : GState :=
  { tensors := [Tensor.init (some exTf) none false], ops := [],
    registery := [("x", 0)] }

/-- Source tensors of a concrete Reshape operator: data input, shape input,
output. -/
def exXTf : TfTensor := { name := "cx", shape := [1, 2, 3, 4], typ := 0, quant := none, buffer := [] }

/-- The int32 shape input of the concrete Reshape. -/
def exShTf : TfTensor := { name := "csh", shape := [4], typ := 2, quant := none, buffer := [1, 3, 4, 2] }

/-- The output tensor of the concrete Reshape. -/
def exYTf : TfTensor := { name := "cy", shape := [1, 3, 4, 2], typ := 0, quant := none, buffer := [] }

/-- The three-tensor subgraph of the concrete Reshape. -/
def exParseGraph : Graph := { tensors := [exXTf, exShTf, exYTf] }

/-- The decoder view of the concrete Reshape operator. -/
def exReshapeTfOp : TfOp := { opcode := 22, inputs := [0, 1], outputs := [2] }

/-- The concrete Reshape operator entity, freshly constructed. -/
def exReshapeOp : Operator :=
  { index := 0, type := .Reshape, tflite := some exReshapeTfOp, inputs := [],
    outputs := [], attrs_perm := none, pre := [], post := [], name := "reshape",
    status := .Inited, forFakeBroadcasting := false }

/-- The state holding only the freshly constructed Reshape operator. -/
def exParseState : GState := { tensors := [], ops := [exReshapeOp], registery := [] }

/-- A parsed non-initializer data-input tensor registered as "cx". -/
def exTa : Tensor :=
  { Tensor.init none none false with
      name := "cx", shape := [1, 2, 3, 4], dtype := some .float32, status := .Parsed }

/-- A parsed initializer shape tensor registered as "csh" (int32 data, as
parsed from the source model). -/
def exTb : Tensor :=
  { Tensor.init none none true with
      name := "csh", shape := [4], dtype := some .int32,
      data := some [1, 3, 4, 2], status := .Parsed }

/-- A parsed output tensor registered as "cy". -/
def exTc : Tensor :=
  { Tensor.init none none false with
      name := "cy", shape := [1, 3, 4, 2], dtype := some .float32, status := .Parsed }

/-- A state in which the three tensors of the concrete Reshape are already
registered and parsed. -/
def exC6State : GState :=
  { tensors := [exTa, exTb, exTc], ops := [exReshapeOp],
    registery := [("cx", 0), ("csh", 1), ("cy", 2)] }

/-- A rank-three layout used in the fake-broadcasting witness. -/
def exLayout3 : Layout := { source := [0, 1, 2], target := [0, 2, 1] }

/-- The Reshape operator of the fake-broadcasting witness. -/
def exFakeOp : Operator :=
  { index := 0, type := .Reshape, tflite := none, inputs := [0, 1],
    outputs := [2], attrs_perm := none, pre := [], post := [], name := "rfb",
    status := .Parsed, forFakeBroadcasting := true }

/-- Rank-two data input of the fake-broadcasting witness. -/
def exFbIn : Tensor :=
  { Tensor.init none none false with name := "fi", shape := [3, 4], status := .Parsed }

/-- The shape tensor of the fake-broadcasting witness. -/
def exFbSh : Tensor :=
  { Tensor.init none none true with
      name := "fs", shape := [3], dtype := some .int64,
      data := some [1, 3, 4], status := .Parsed }

/-- Rank-three output (with layout) of the fake-broadcasting witness. -/
def exFbOut : Tensor :=
  { Tensor.init none (some exLayout3) false with
      name := "fo", shape := [1, 3, 4], status := .Parsed }

/-- The fake-broadcasting witness state. -/
def exFakeState : GState :=
  { tensors := [exFbIn, exFbSh, exFbOut], ops := [exFakeOp],
    registery := [("fi", 0), ("fs", 1), ("fo", 2)] }

/-- The input tensor (with layout) of the input-splice witness. -/
def exSpliceIn : Tensor :=
  { Tensor.init none (some exLayout) false with
      name := "si", shape := [1, 2, 3, 4], dtype := some .float32,
      status := .Parsed, consumers := [0] }

/-- The output tensor (without layout) of the input-splice witness. -/
def exSpliceOut : Tensor :=
  { Tensor.init none none false with
      name := "so", shape := [24], dtype := some .float32,
      status := .Parsed, producers := [0] }

/-- The Reshape operator of the splice witnesses. -/
def exSpliceOp : Operator :=
  { index := 0, type := .Reshape, tflite := none, inputs := [0], outputs := [1],
    attrs_perm := none, pre := [], post := [], name := "r", status := .Parsed,
    forFakeBroadcasting := false }

/-- The input-splice witness state. -/
def exSpliceState : GState :=
  { tensors := [exSpliceIn, exSpliceOut], ops := [exSpliceOp],
    registery := [("si", 0), ("so", 1)] }

/-- The state produced by running `Reshape.transform` on the input-splice
witness state. -/
def exSpliceResult : GState := okState (Reshape.transform exSpliceState 0)

/-- The input tensor (without layout) of the output-splice witness. -/
def exOutIn : Tensor :=
  { Tensor.init none none false with
      name := "oi", shape := [24], dtype := some .float32,
      status := .Parsed, consumers := [0] }

/-- The output tensor (with layout) of the output-splice witness. -/
def exOutOut : Tensor :=
  { Tensor.init none (some exLayout) false with
      name := "oo", shape := [1, 2, 3, 4], dtype := some .float32,
      status := .Parsed, producers := [0] }

/-- The output-splice witness state. -/
def exOutState : GState :=
  { tensors := [exOutIn, exOutOut], ops := [exSpliceOp],
    registery := [("oi", 0), ("oo", 1)] }

/-- The state produced by running `Reshape.transform` on the output-splice
witness state. -/
def exOutResult : GState := okState (Reshape.transform exOutState 0)

/-- An unparsed tensor whose dtype was already assigned. -/
def exBadT : Tensor :=
  { Tensor.init (some exShTf) none false with dtype := some .float32 }

/-- The state produced by running `Reshape.parse` on the pre-registered
state. -/
def exC6Result : GState := okState (Reshape.parse exC6State 0 exParseGraph)

/-- The state produced by running `Reshape.transform` on the
fake-broadcasting witness state. -/
def exFakeResult : GState := okState (Reshape.transform exFakeState 0)

/-- Success test for a rewrite outcome. -/
def exceptIsOk : Except Err GState → Bool
  | .ok _ => true
  | .error _ => false

/-! ## Helper lemmas -/

/-- The lifecycle guard of `Tensor.parse`: a tensor that already reports
parsed is returned unchanged. -/
theorem parse_of_parsed {t : Tensor} (h : t.status.parsed = true) :
    t.parse = .ok t := by
  simp [Tensor.parse, h]

/-- The lifecycle guard of `Tensor.convert`: a tensor that already reports
converted is returned unchanged. -/
theorem convert_of_converted {t : Tensor} (h : t.status.converted = true) :
    t.convert = .ok t := by
  simp [Tensor.convert, h]

/-! ## C7: parse / convert idempotence by lifecycle guard -/

/-- C7: for every Tensor, calling `parse` on an already-parsed tensor and
calling `convert` on an already-converted tensor are no-ops: the guard on the
lifecycle state returns the tensor itself, leaving every field unchanged. -/
theorem tensor_parse_convert_idempotent (t u : Tensor)
    (hp : t.status.parsed = true) (hc : u.status.converted = true) :
    t.parse = .ok t ∧ u.convert = .ok u :=
  ⟨parse_of_parsed hp, convert_of_converted hc⟩

/-- Witness for C7 at concrete tensors. -/
theorem tensor_parse_convert_idempotent_witness :
    exParsedT.parse = .ok exParsedT ∧ exConvertedT.convert = .ok exConvertedT :=
  tensor_parse_convert_idempotent exParsedT exConvertedT rfl rfl

/-! ## C8: the scalar predicate -/

/-- C8: `isScalar` reports true when the layout is null, the shape is empty
and the data buffer has length one; and it reports false for every tensor
with non-empty shape, regardless of the data buffer (which is not even
evaluated, by short-circuiting). -/
theorem tensor_isScalar_spec (t : Tensor) :
    (t.layout = none → t.shape = [] → ∀ d, t.data = some d → d.length = 1 →
      t.isScalar = .ok true) ∧
    (t.shape ≠ [] → t.isScalar = .ok false) := by
  constructor
  · intro hl hs d hd hlen
    simp [Tensor.isScalar, hl, hs, hd, hlen]
  · intro hs
    cases hl : t.layout with
    | some l => simp [Tensor.isScalar, hl]
    | none => simp [Tensor.isScalar, hl, List.length_eq_zero, hs]

/-- Witness for C8 at concrete tensors. -/
theorem tensor_isScalar_spec_witness :
    exScalarT.isScalar = .ok true ∧ exVecT.isScalar = .ok false :=
  ⟨(tensor_isScalar_spec exScalarT).1 rfl rfl [5] rfl rfl,
   (tensor_isScalar_spec exVecT).2 (by decide)⟩

/-! ## C10: the scalar predicate is not total -/

/-- C10: for a tensor with null layout and empty shape whose data buffer is
absent, `isScalar` raises (`len(None)` is a `TypeError`) instead of returning
a boolean; and a non-initializer tensor's data indeed stays absent through
`parse`. -/
theorem tensor_isScalar_not_total (t : Tensor)
    (hl : t.layout = none) (hs : t.shape = []) (hd : t.data = none) :
    t.isScalar = .error .typeError ∧
    (t.is_initializer = false → ∀ t2, t.parse = .ok t2 → t2.data = none) := by
  constructor
  · simp [Tensor.isScalar, hl, hs, hd]
  · intro hinit t2 hp
    unfold Tensor.parse at hp
    cases hdt : t.dtype with
    | some dt0 =>
      simp only [hdt] at hp
      repeat' split at hp
      all_goals try (cases hp)
      all_goals first | exact hd | simp_all
    | none =>
      simp only [hdt] at hp
      repeat' split at hp
      all_goals try (cases hp)
      all_goals first | exact hd | simp_all

/-- Witness for C10 at a concrete tensor. -/
theorem tensor_isScalar_not_total_witness :
    exEmptyT.isScalar = .error .typeError :=
  (tensor_isScalar_not_total exEmptyT rfl rfl rfl).1

/-! ## C9: Tensor.transform has no lifecycle guard -/

/-- C9: `Tensor.transform` on a parsed tensor with a non-null layout
unconditionally re-applies the layout permutation to the shape (and to the
data when the tensor is an initializer), never advances the status, leaves
every other field unchanged, and therefore compounds the permutation when
called twice. -/
theorem tensor_transform_no_guard (t : Tensor) (lay : Layout)
    (hp : t.status.parsed = true) (hl : t.layout = some lay)
    (hd : t.is_initializer = true → ∃ d, t.data = some d) :
    ∃ t1 t2, t.transform = .ok t1 ∧ t1.transform = .ok t2 ∧
      t1.shape = lay.transform t.shape ∧
      t2.shape = lay.transform (lay.transform t.shape) ∧
      (t.is_initializer = true → ∀ d, t.data = some d →
        t1.data = some (transformData t.shape lay.perm d)) ∧
      (t.is_initializer = false → t1.data = t.data) ∧
      t1.status = t.status ∧ t1.name = t.name ∧ t1.dtype = t.dtype ∧
      t1.scale = t.scale ∧ t1.zero_point = t.zero_point ∧
      t1.producers = t.producers ∧ t1.consumers = t.consumers ∧
      t1.layout = t.layout ∧ t1.is_initializer = t.is_initializer := by
  cases hinit : t.is_initializer with
  | false =>
    refine ⟨{ t with shape := lay.transform t.shape },
            { t with shape := lay.transform (lay.transform t.shape) },
            ?_, ?_, rfl, rfl, fun h => absurd h (by decide), fun _ => rfl,
            rfl, rfl, rfl, rfl, rfl, rfl, rfl, rfl, hinit⟩
    · simp [Tensor.transform, hp, hl, hinit]
    · simp [Tensor.transform, hp, hl, hinit]
  | true =>
    obtain ⟨d, hdd⟩ := hd hinit
    refine ⟨{ t with shape := lay.transform t.shape,
                     data := some (transformData t.shape lay.perm d) },
            { t with shape := lay.transform (lay.transform t.shape),
                     data := some (transformData (lay.transform t.shape) lay.perm
                                     (transformData t.shape lay.perm d)) },
            ?_, ?_, rfl, rfl, ?_, fun h => absurd h (by decide),
            rfl, rfl, rfl, rfl, rfl, rfl, rfl, rfl, hinit⟩
    · simp [Tensor.transform, hp, hl, hinit, hdd]
    · simp [Tensor.transform, hp, hl, hinit, hdd]
    · intro _ d2 hd2
      rw [hdd] at hd2
      injection hd2 with h
      subst h
      rfl

/-- Witness for C9 at a concrete initializer tensor: the shape is permuted,
permuted again by the second call, and the buffer is transposed. -/
theorem tensor_transform_no_guard_witness :
    ∃ t1 t2, exInitT.transform = .ok t1 ∧ t1.transform = .ok t2 ∧
      t1.shape = [3, 2] ∧ t2.shape = [2, 3] ∧
      t1.data = some [1, 4, 2, 5, 3, 6] ∧ t1.status = exInitT.status := by
  obtain ⟨t1, t2, h1, h2, h3, h4, h5, _, h7, _⟩ :=
    tensor_transform_no_guard exInitT { source := [0, 1], target := [1, 0] }
      rfl rfl (fun _ => ⟨[1, 2, 3, 4, 5, 6], rfl⟩)
  refine ⟨t1, t2, h1, h2, ?_, ?_, ?_, h7⟩
  · rw [h3]; rfl
  · rw [h4]; rfl
  · rw [h5 rfl [1, 2, 3, 4, 5, 6] rfl]; rfl

/-! ## C2: the registry returns identical instances -/

/-- C2: a repeated registry lookup of the same source tensor returns the
identical stored instance and leaves the state — including the stored
tensor — unchanged; the layout and initializer arguments of the later call
are ignored. -/
theorem registry_get_identical_instance (s : GState) (g : Graph) (i : Nat)
    (l1 l2 : Option Layout) (b1 b2 : Bool) (s1 : GState) (tid : Nat)
    (h : tensor.get s g i l1 b1 = .ok (s1, tid)) :
    tensor.get s1 g i l2 b2 = .ok (s1, tid) := by
  unfold tensor.get at h ⊢
  cases hg : g.tensors[i]? with
  | none => rw [hg] at h; cases h
  | some tf =>
    simp only [hg] at h ⊢
    cases hr : lookupReg s.registery tf.name with
    | some t0 =>
      simp only [hr, Except.ok.injEq, Prod.mk.injEq] at h
      obtain ⟨h1, h2⟩ := h
      subst h1; subst h2
      simp only [hr]
    | none =>
      simp only [hr, Except.ok.injEq, Prod.mk.injEq] at h
      obtain ⟨h1, h2⟩ := h
      subst h1; subst h2
      simp [lookupReg]

/-- Witness for C2: the second lookup of the same name, now with a layout
and the initializer flag set, returns the same id and the unchanged state. -/
theorem registry_get_identical_instance_witness :
    tensor.get exStateAfterGet exGraph 0 (some exLayout) true = .ok (exStateAfterGet, 0) :=
  registry_get_identical_instance exEmptyState exGraph 0 none (some exLayout)
    false true exStateAfterGet 0 rfl

/-! ## C5: dtype write-once discipline -/

/-- C5 (amended claim): within `Tensor.parse`, dtype is write-once — parsing
a not-yet-parsed tensor whose dtype is already assigned fails the assertion
`assert(self.dtype is None)`. -/
theorem tensor_parse_dtype_assigned_once (t : Tensor) (tf : TfTensor)
    (dt0 dt1 : DType) (hs : t.status.parsed = false) (htf : t.tflite = some tf)
    (hmap : DTYPE_TFLITE2ONNX tf.typ = some dt1) (hdt : t.dtype = some dt0) :
    t.parse = .error .assertionError := by
  unfold Tensor.parse
  simp only [hs, htf, hmap, hdt]
  rfl

/-- Witness for C5's amended claim at a concrete tensor. -/
theorem tensor_parse_dtype_assigned_once_witness :
    exBadT.parse = .error .assertionError :=
  tensor_parse_dtype_assigned_once exBadT exShTf DType.float32 DType.int32
    rfl rfl rfl rfl

/-- Counterexample to C5 as stated: running `Reshape.parse` on a freshly
constructed Reshape assigns the secondary shape tensor's dtype twice — first
`Tensor.parse` assigns the source-mapped 32-bit integer type, then the
coercion overwrites it with the 64-bit integer type — and the whole run
succeeds instead of failing an assertion. -/
theorem dtype_reassignment_counterexample :
    (Tensor.init (some exShTf) none false).parse.map Tensor.dtype
        = .ok (some DType.int32) ∧
    (Reshape.parse exParseState 0 exParseGraph).map
        (fun s => (s.tensors[1]?).map Tensor.dtype)
        = .ok (some (some DType.int64)) := by
  constructor
  · rfl
  · rfl

/-- Evaluation of `parseInput` when the tensor is a registry hit and already
parsed: the tensor gains this operator as consumer and the operator appends
the tensor to its inputs. -/
theorem parseInput_hit (s : GState) (selfId : Nat) (g : Graph) (tfop : TfOp)
    (pos ti : Nat) (tf : TfTensor) (tid : Nat) (t : Tensor) (sf : Operator)
    (hpos : tfop.inputs[pos]? = some ti) (hg : g.tensors[ti]? = some tf)
    (hr : lookupReg s.registery tf.name = some tid)
    (ht : s.tensors[tid]? = some t) (hp : t.status.parsed = true)
    (hsf : s.ops[selfId]? = some sf) :
    parseInput s selfId g tfop pos =
      .ok ({ s with tensors := s.tensors.set tid (t.addConsumer selfId),
                    ops := s.ops.set selfId
                      { sf with inputs := sf.inputs ++ [tid] } }, tid) := by
  unfold parseInput tensor.get
  simp only [hpos, hg, hr, ht, parse_of_parsed hp, hsf]

/-- Evaluation of `parseOutput` when the tensor is a registry hit and already
parsed: the tensor gains this operator as producer and the operator appends
the tensor to its outputs. -/
theorem parseOutput_hit (s : GState) (selfId : Nat) (g : Graph) (tfop : TfOp)
    (pos ti : Nat) (tf : TfTensor) (tid : Nat) (t : Tensor) (sf : Operator)
    (hpos : tfop.outputs[pos]? = some ti) (hg : g.tensors[ti]? = some tf)
    (hr : lookupReg s.registery tf.name = some tid)
    (ht : s.tensors[tid]? = some t) (hp : t.status.parsed = true)
    (hsf : s.ops[selfId]? = some sf) :
    parseOutput s selfId g tfop pos =
      .ok ({ s with tensors := s.tensors.set tid (t.addProducer selfId),
                    ops := s.ops.set selfId
                      { sf with outputs := sf.outputs ++ [tid] } }, tid) := by
  unfold parseOutput tensor.get
  simp only [hpos, hg, hr, ht, parse_of_parsed hp, hsf]

@[simp] theorem addConsumer_is_initializer (t : Tensor) (i : Nat) :
    (t.addConsumer i).is_initializer = t.is_initializer := by
  unfold Tensor.addConsumer; split <;> rfl

@[simp] theorem addConsumer_data (t : Tensor) (i : Nat) :
    (t.addConsumer i).data = t.data := by
  unfold Tensor.addConsumer; split <;> rfl

@[simp] theorem addConsumer_shape (t : Tensor) (i : Nat) :
    (t.addConsumer i).shape = t.shape := by
  unfold Tensor.addConsumer; split <;> rfl

@[simp] theorem addConsumer_dtype (t : Tensor) (i : Nat) :
    (t.addConsumer i).dtype = t.dtype := by
  unfold Tensor.addConsumer; split <;> rfl

@[simp] theorem addConsumer_status (t : Tensor) (i : Nat) :
    (t.addConsumer i).status = t.status := by
  unfold Tensor.addConsumer; split <;> rfl

@[simp] theorem addConsumer_layout (t : Tensor) (i : Nat) :
    (t.addConsumer i).layout = t.layout := by
  unfold Tensor.addConsumer; split <;> rfl

@[simp] theorem addConsumer_name (t : Tensor) (i : Nat) :
    (t.addConsumer i).name = t.name := by
  unfold Tensor.addConsumer; split <;> rfl

@[simp] theorem addProducer_is_initializer (t : Tensor) (i : Nat) :
    (t.addProducer i).is_initializer = t.is_initializer := by
  unfold Tensor.addProducer; split <;> rfl

@[simp] theorem addProducer_data (t : Tensor) (i : Nat) :
    (t.addProducer i).data = t.data := by
  unfold Tensor.addProducer; split <;> rfl

@[simp] theorem addProducer_shape (t : Tensor) (i : Nat) :
    (t.addProducer i).shape = t.shape := by
  unfold Tensor.addProducer; split <;> rfl

@[simp] theorem addProducer_dtype (t : Tensor) (i : Nat) :
    (t.addProducer i).dtype = t.dtype := by
  unfold Tensor.addProducer; split <;> rfl

@[simp] theorem addProducer_status (t : Tensor) (i : Nat) :
    (t.addProducer i).status = t.status := by
  unfold Tensor.addProducer; split <;> rfl

@[simp] theorem addProducer_layout (t : Tensor) (i : Nat) :
    (t.addProducer i).layout = t.layout := by
  unfold Tensor.addProducer; split <;> rfl

@[simp] theorem addProducer_name (t : Tensor) (i : Nat) :
    (t.addProducer i).name = t.name := by
  unfold Tensor.addProducer; split <;> rfl

/-! ## C6: the secondary shape tensor after Reshape.parse -/

/-- C6: for every Reshape operator with a second input present (both operand
tensors resolved through the registry as already-parsed instances), after
`parse()` the secondary shape tensor's dtype is the 64-bit integer type, its
data values are numerically unchanged (the widening cast is the identity on
the values), and a declared shape of rank above one is flattened to rank one
with the element count preserved only when the tensor is an initializer, and
left as-is otherwise. -/
theorem reshape_parse_shape_tensor
    (s : GState) (selfId : Nat) (g : Graph) (sf : Operator) (tfop : TfOp)
    (a b c ia ib ic : Nat) (tfa tfb tfc : TfTensor) (ta tb tc : Tensor)
    (hs : s.ops[selfId]? = some sf)
    (htf : sf.tflite = some tfop)
    (hop : tfop.opcode = RESHAPE_CODE)
    (hins : tfop.inputs = [a, b]) (houts : tfop.outputs = [c])
    (hga : g.tensors[a]? = some tfa) (hgb : g.tensors[b]? = some tfb)
    (hgc : g.tensors[c]? = some tfc)
    (hra : lookupReg s.registery tfa.name = some ia)
    (hrb : lookupReg s.registery tfb.name = some ib)
    (hrc : lookupReg s.registery tfc.name = some ic)
    (hta : s.tensors[ia]? = some ta) (htb : s.tensors[ib]? = some tb)
    (htc : s.tensors[ic]? = some tc)
    (hpa : ta.status.parsed = true) (hpb : tb.status.parsed = true)
    (hpc : tc.status.parsed = true)
    (hdat : tb.is_initializer = true → ∃ d, tb.data = some d)
    (hab : ia ≠ ib) (hac : ia ≠ ic) (hbc : ib ≠ ic) :
    exceptIsOk (Reshape.parse s selfId g) = true ∧
    (∀ s4, Reshape.parse s selfId g = .ok s4 → ∀ st, s4.tensors[ib]? = some st →
      st.dtype = some DType.int64 ∧
      st.data = tb.data ∧
      (1 < tb.shape.length → tb.is_initializer = true →
        st.shape = [shapeProd tb.shape]) ∧
      (1 < tb.shape.length → tb.is_initializer = false → st.shape = tb.shape) ∧
      (¬ 1 < tb.shape.length → st.shape = tb.shape)) := by
  rcases hb : tb.is_initializer with _ | _
  · constructor
    · unfold Reshape.parse parseInput parseOutput tensor.get
      simp [hs, htf, hop, hins, houts, hga, hgb, hgc, hra, hrb, hrc,
            hta, htb, htc, parse_of_parsed hpa, parse_of_parsed hpb,
            parse_of_parsed hpc, hb, exceptIsOk,
            List.getElem?_set_self', List.getElem?_set_ne hab,
            List.getElem?_set_ne hac, List.getElem?_set_ne hbc,
            List.getElem?_set_ne (Ne.symm hab), List.getElem?_set_ne (Ne.symm hbc),
            List.set_set]
    · intro s4 hE st hst
      unfold Reshape.parse parseInput parseOutput tensor.get at hE
      simp [hs, htf, hop, hins, houts, hga, hgb, hgc, hra, hrb, hrc,
            hta, htb, htc, parse_of_parsed hpa, parse_of_parsed hpb,
            parse_of_parsed hpc, hb,
            List.getElem?_set_self', List.getElem?_set_ne hab,
            List.getElem?_set_ne hac, List.getElem?_set_ne hbc,
            List.getElem?_set_ne (Ne.symm hab), List.getElem?_set_ne (Ne.symm hbc),
            List.set_set] at hE
      subst hE
      simp [List.getElem?_set_self', List.getElem?_set_ne hab,
            List.getElem?_set_ne hac, List.getElem?_set_ne hbc,
            List.getElem?_set_ne (Ne.symm hab), List.getElem?_set_ne (Ne.symm hbc),
            List.set_set, htb] at hst
      subst hst
      refine ⟨by simp, by simp, ?_, fun _ _ => by simp, fun _ => by simp⟩
      intro _ hinit
      cases hinit
  · obtain ⟨d, hdd⟩ := hdat hb
    by_cases hrank : 1 < tb.shape.length
    · constructor
      · unfold Reshape.parse parseInput parseOutput tensor.get
        simp [hs, htf, hop, hins, houts, hga, hgb, hgc, hra, hrb, hrc,
              hta, htb, htc, parse_of_parsed hpa, parse_of_parsed hpb,
              parse_of_parsed hpc, hb, hdd, hrank, exceptIsOk,
              List.getElem?_set_self', List.getElem?_set_ne hab,
              List.getElem?_set_ne hac, List.getElem?_set_ne hbc,
              List.getElem?_set_ne (Ne.symm hab), List.getElem?_set_ne (Ne.symm hbc),
              List.set_set]
      · intro s4 hE st hst
        unfold Reshape.parse parseInput parseOutput tensor.get at hE
        simp [hs, htf, hop, hins, houts, hga, hgb, hgc, hra, hrb, hrc,
              hta, htb, htc, parse_of_parsed hpa, parse_of_parsed hpb,
              parse_of_parsed hpc, hb, hdd, hrank,
              List.getElem?_set_self', List.getElem?_set_ne hab,
              List.getElem?_set_ne hac, List.getElem?_set_ne hbc,
              List.getElem?_set_ne (Ne.symm hab), List.getElem?_set_ne (Ne.symm hbc),
              List.set_set] at hE
        subst hE
        simp [List.getElem?_set_self', List.getElem?_set_ne hab,
              List.getElem?_set_ne hac, List.getElem?_set_ne hbc,
              List.getElem?_set_ne (Ne.symm hab), List.getElem?_set_ne (Ne.symm hbc),
              List.set_set, htb] at hst
        subst hst
        refine ⟨by simp, by simp [astype_int64, hdd], fun _ _ => by simp, ?_, ?_⟩
        · intro _ hinit
          cases hinit
        · intro h
          exact absurd hrank h
    · constructor
      · unfold Reshape.parse parseInput parseOutput tensor.get
        simp [hs, htf, hop, hins, houts, hga, hgb, hgc, hra, hrb, hrc,
              hta, htb, htc, parse_of_parsed hpa, parse_of_parsed hpb,
              parse_of_parsed hpc, hb, hdd, hrank, exceptIsOk,
              List.getElem?_set_self', List.getElem?_set_ne hab,
              List.getElem?_set_ne hac, List.getElem?_set_ne hbc,
              List.getElem?_set_ne (Ne.symm hab), List.getElem?_set_ne (Ne.symm hbc),
              List.set_set]
      · intro s4 hE st hst
        unfold Reshape.parse parseInput parseOutput tensor.get at hE
        simp [hs, htf, hop, hins, houts, hga, hgb, hgc, hra, hrb, hrc,
              hta, htb, htc, parse_of_parsed hpa, parse_of_parsed hpb,
              parse_of_parsed hpc, hb, hdd, hrank,
              List.getElem?_set_self', List.getElem?_set_ne hab,
              List.getElem?_set_ne hac, List.getElem?_set_ne hbc,
              List.getElem?_set_ne (Ne.symm hab), List.getElem?_set_ne (Ne.symm hbc),
              List.set_set] at hE
        subst hE
        simp [List.getElem?_set_self', List.getElem?_set_ne hab,
              List.getElem?_set_ne hac, List.getElem?_set_ne hbc,
              List.getElem?_set_ne (Ne.symm hab), List.getElem?_set_ne (Ne.symm hbc),
              List.set_set, htb] at hst
        subst hst
        refine ⟨by simp, by simp [astype_int64, hdd], ?_, ?_, fun _ => by simp⟩
        · intro h _
          exact absurd h hrank
        · intro h _
          exact absurd h hrank

/-- Witness for C6 at the concrete pre-registered Reshape: the parse run
succeeds, and the stored shape tensor ends with int64 dtype and unchanged
data values. -/
theorem reshape_parse_shape_tensor_witness :
    exceptIsOk (Reshape.parse exC6State 0 exParseGraph) = true ∧
    ∃ st, exC6Result.tensors[1]? = some st ∧ st.dtype = some DType.int64 ∧
      st.data = some [1, 3, 4, 2] := by
  have h := reshape_parse_shape_tensor exC6State 0 exParseGraph exReshapeOp
    exReshapeTfOp 0 1 2 0 1 2 exXTf exShTf exYTf exTa exTb exTc
    rfl rfl rfl rfl rfl rfl rfl rfl rfl rfl rfl rfl rfl rfl rfl rfl rfl
    (fun _ => ⟨[1, 3, 4, 2], rfl⟩) (by decide) (by decide) (by decide)
  refine ⟨h.1, _, rfl, ?_, ?_⟩
  · exact (h.2 exC6Result rfl _ rfl).1
  · exact (h.2 exC6Result rfl _ rfl).2.1

/-! ## C3: the fake-broadcasting arm of Reshape.transform -/

/-- C3: in fake-broadcasting mode (input and output ranks differ) `transform`
permutes the values stored in the secondary shape tensor per the output's
layout and inserts no operator (the whole operator arena, both other tensors
and the `pre`/`post` lists are untouched: only the shape tensor's data
changes); a missing output layout is a fatal `ValueError`; and the arm is
mutually exclusive with the Transpose-splice arm: with the flag unset the run
is exactly `spliceRewrite`, which never touches the shape tensor's values. -/
theorem reshape_transform_fake_broadcasting
    (s : GState) (selfId : Nat) (sf : Operator) (iId oId stId : Nat)
    (iT oT st : Tensor) (d : List Int)
    (hs : s.ops[selfId]? = some sf)
    (hin : sf.inputs[0]? = some iId)
    (hout : sf.outputs[0]? = some oId)
    (hst1 : sf.inputs[1]? = some stId)
    (hiT : s.tensors[iId]? = some iT)
    (hoT : s.tensors[oId]? = some oT)
    (hstT : s.tensors[stId]? = some st)
    (hd : st.data = some d)
    (hrank : iT.shape.length ≠ oT.shape.length) :
    (sf.forFakeBroadcasting = true →
      (∀ lay, oT.layout = some lay →
        Reshape.transform s selfId =
          .ok ({ s with tensors := s.tensors.set stId
                          ({ st with data := some (lay.transform d) }) })) ∧
      (oT.layout = none → Reshape.transform s selfId = .error .valueError)) ∧
    (sf.forFakeBroadcasting = false →
      Reshape.transform s selfId = Reshape.spliceRewrite s selfId iId oId) := by
  constructor
  · intro hfb
    constructor
    · intro lay hlay
      unfold Reshape.transform Reshape.fakeBroadcastRewrite
      simp [hs, hin, hout, hst1, hiT, hoT, hstT, hd, hlay, hfb, hrank]
    · intro hlay
      unfold Reshape.transform Reshape.fakeBroadcastRewrite
      simp [hs, hin, hout, hst1, hiT, hoT, hstT, hd, hlay, hfb, hrank]
  · intro hfb
    unfold Reshape.transform
    simp [hs, hin, hout, hfb]

/-- Witness for C3 at the concrete fake-broadcasting Reshape: the shape
values `[1, 3, 4]` are permuted to `[1, 4, 3]` by the output's layout and
the state is otherwise unchanged. -/
theorem reshape_transform_fake_broadcasting_witness :
    Reshape.transform exFakeState 0 =
      .ok ({ exFakeState with tensors := exFakeState.tensors.set 1
                                  ({ exFbSh with data := some [1, 4, 3] }) }) := by
  have h := ((reshape_transform_fake_broadcasting exFakeState 0 exFakeOp 0 2 1
      exFbIn exFbOut exFbSh [1, 3, 4] rfl rfl rfl rfl rfl rfl rfl rfl
      (by decide)).1 rfl).1 exLayout3 rfl
  rw [h]
  rfl

theorem get?_append_lt {α : Type} (l r : List α) (i : Nat)
    (h : i < l.length) : (l ++ r)[i]? = l[i]? :=
  List.getElem?_append_left h

theorem get?_append_ge {α : Type} (l r : List α) (i : Nat)
    (h : l.length ≤ i) : (l ++ r)[i]? = r[i - l.length]? :=
  List.getElem?_append_right h

theorem set_append_lt {α : Type} (l r : List α) (b : α) (i : Nat)
    (h : i < l.length) : (l ++ r).set i b = (l.set i b) ++ r :=
  List.set_append_left i b h

theorem set_append_ge {α : Type} (l r : List α) (b : α) (i : Nat)
    (h : l.length ≤ i) : (l ++ r).set i b = l ++ r.set (i - l.length) b :=
  List.set_append_right i b h

theorem get?_replaceId (old new : Nat) (l : List Nat) (i : Nat)
    (h : l[i]? = some old) : (replaceId old new l)[i]? = some new := by
  unfold replaceId
  rw [List.getElem?_map, h]
  simp

theorem mem_replaceId (old new : Nat) (l : List Nat) (h : old ∈ l) :
    new ∈ replaceId old new l := by
  unfold replaceId
  exact List.mem_map.mpr ⟨old, h, by simp⟩

theorem not_mem_replaceId (old new : Nat) (l : List Nat) (h : new ≠ old) :
    old ∉ replaceId old new l := by
  unfold replaceId
  intro hmem
  obtain ⟨x, hx, hfx⟩ := List.mem_map.mp hmem
  by_cases hxo : x = old
  · rw [if_pos hxo] at hfx
    exact h hfx
  · rw [if_neg hxo] at hfx
    exact hxo hfx

/-! ## C1: the input-side Transpose splice -/

/-- Counterexample to C1 as stated: at a concrete Parsed Reshape whose input
declares `layout = {source := [0,1,2,3] (NHWC), target := [0,3,1,2] (NCHW)}`,
the appended Transpose carries `attrs.perm = [0,2,3,1]` — the permutation of
the exchanged (source/target swapped) layout — whereas the declared layout's
own permutation is `[0,3,1,2]`, a different list. -/
theorem reshape_transform_perm_counterexample :
    Reshape.transform exSpliceState 0 = .ok exSpliceResult ∧
    (exSpliceResult.ops[1]?).map Operator.attrs_perm = some (some [0, 2, 3, 1]) ∧
    exSpliceIn.layout.map Layout.perm = some [0, 3, 1, 2] ∧
    ([0, 2, 3, 1] : List Nat) ≠ [0, 3, 1, 2] := by
  refine ⟨rfl, rfl, rfl, by decide⟩

/-- C1 (amended): for every Parsed Reshape operator not in fake-broadcasting
mode whose first input tensor declares a non-null layout (with the synthetic
names fresh in the registry and distinct input/output tensors), after
`transform()` the operator's first input reference is a freshly synthesized
tensor distinct from the original, a new Transpose operator is appended to
the operator's `pre` list with `attrs.perm` equal to the permutation of the
exchanged (source/target swapped) layout, and the original input tensor's
consumer list contains that Transpose in place of the Reshape operator. -/
theorem reshape_transform_input_splice
    (s : GState) (selfId : Nat) (sf : Operator) (iId oId : Nat)
    (iT oT : Tensor) (lay : Layout)
    (hs : s.ops[selfId]? = some sf)
    (htype : sf.type = OpType.Reshape)
    (hp : sf.status.parsed = true)
    (hfb : sf.forFakeBroadcasting = false)
    (hin : sf.inputs[0]? = some iId)
    (hout : sf.outputs[0]? = some oId)
    (hiT : s.tensors[iId]? = some iT)
    (hoT : s.tensors[oId]? = some oT)
    (hlay : iT.layout = some lay)
    (hio : iId ≠ oId)
    (hf1 : lookupReg s.registery ("TFLITE2ONNX_Transposed_" ++ iT.name) = none)
    (hf2 : lookupReg s.registery ("TFLITE2ONNX_ToTranspose_" ++ oT.name) = none)
    (hnn : ("TFLITE2ONNX_Transposed_" ++ iT.name : String) ≠
           "TFLITE2ONNX_ToTranspose_" ++ oT.name) :
    ∀ s', Reshape.transform s selfId = .ok s' →
      (∃ sf', s'.ops[selfId]? = some sf' ∧
        sf'.inputs[0]? = some s.tensors.length ∧
        sf'.pre = sf.pre ++ [s.ops.length]) ∧
      s.tensors.length ≠ iId ∧
      (∃ trT, s'.tensors[s.tensors.length]? = some trT ∧
        trT.name = "TFLITE2ONNX_Transposed_" ++ iT.name) ∧
      (∃ tr, s'.ops[s.ops.length]? = some tr ∧ tr.type = OpType.Transpose ∧
        tr.index = -1 ∧
        tr.attrs_perm = some (Layout.perm { source := lay.target, target := lay.source })) ∧
      (∃ iT', s'.tensors[iId]? = some iT' ∧
        iT'.consumers = replaceId selfId s.ops.length iT.consumers ∧
        (selfId ∈ iT.consumers →
          s.ops.length ∈ iT'.consumers ∧ selfId ∉ iT'.consumers)) := by
  intro s' hE
  have hilen : iId < s.tensors.length := by
    rcases List.getElem?_eq_some_iff.mp hiT with ⟨h, -⟩
    exact h
  have holen : oId < s.tensors.length := by
    rcases List.getElem?_eq_some_iff.mp hoT with ⟨h, -⟩
    exact h
  have hsellen : selfId < s.ops.length := by
    rcases List.getElem?_eq_some_iff.mp hs with ⟨h, -⟩
    exact h
  have hiTg : s.tensors[iId] = iT := by
    rcases List.getElem?_eq_some_iff.mp hiT with ⟨h1, h2⟩
    exact h2
  have hoTg : s.tensors[oId] = oT := by
    rcases List.getElem?_eq_some_iff.mp hoT with ⟨h1, h2⟩
    exact h2
  have hsfg : s.ops[selfId] = sf := by
    rcases List.getElem?_eq_some_iff.mp hs with ⟨h1, h2⟩
    exact h2
  have hselne : s.ops.length ≠ selfId := Ne.symm (Nat.ne_of_lt hsellen)
  unfold Reshape.transform Reshape.spliceRewrite
    Reshape.preserveInputSpatialSemantic Reshape.preserveOutputSpatialSemantic
    getWithRef at hE
  cases hlayo : oT.layout with
  | none =>
    simp [-List.getElem?_eq_getElem, List.getElem?_cons_zero, hs, hp, hfb, hin, hout, hiT, hoT, hiTg, hoTg, hsfg, hlay, hlayo,
          hf1, hf2, hnn, hio, Ne.symm hio, hilen, holen, hsellen, Tensor.init,
          Transpose.init, Tensor.addProducer, Tensor.addConsumer, lookupReg,
          get?_append_lt, get?_append_ge, set_append_lt, set_append_ge,
          List.set_set] at hE
    subst hE
    refine ⟨?_, Ne.symm (Nat.ne_of_lt hilen), ?_, ?_, ?_⟩
    · simp [-List.getElem?_eq_getElem, List.getElem?_cons_zero, hsellen, get?_append_lt, List.getElem?_set_self', hs,
            get?_replaceId iId s.tensors.length sf.inputs 0 hin]
    · simp [-List.getElem?_eq_getElem, List.getElem?_cons_zero, hilen, get?_append_lt, get?_append_ge]
    · simp [-List.getElem?_eq_getElem, List.getElem?_cons_zero, hsellen, get?_append_lt, get?_append_ge, List.getElem?_set_self']
    · simp [-List.getElem?_eq_getElem, List.getElem?_cons_zero, hilen, get?_append_lt, List.getElem?_set_self', hiT]
      intro hm
      exact ⟨mem_replaceId selfId s.ops.length iT.consumers hm,
             not_mem_replaceId selfId s.ops.length iT.consumers hselne⟩
  | some layo =>
    simp [-List.getElem?_eq_getElem, List.getElem?_cons_zero, hs, hp, hfb, hin, hout, hiT, hoT, hiTg, hoTg, hsfg, hlay, hlayo,
          hf1, hf2, hnn, hio, Ne.symm hio, hilen, holen, hsellen, Tensor.init,
          Transpose.init, Tensor.addProducer, Tensor.addConsumer, lookupReg,
          get?_append_lt, get?_append_ge, set_append_lt, set_append_ge,
          List.set_set] at hE
    subst hE
    refine ⟨?_, Ne.symm (Nat.ne_of_lt hilen), ?_, ?_, ?_⟩
    · simp [-List.getElem?_eq_getElem, List.getElem?_cons_zero, hsellen, get?_append_lt, List.getElem?_set_self', hs,
            get?_replaceId iId s.tensors.length sf.inputs 0 hin]
    · simp [-List.getElem?_eq_getElem, List.getElem?_cons_zero, hilen, holen, get?_append_lt, get?_append_ge,
            List.getElem?_set_ne hio, List.getElem?_set_ne (Ne.symm hio),
            List.getElem?_set_self']
    · simp [-List.getElem?_eq_getElem, List.getElem?_cons_zero, hsellen, get?_append_lt, get?_append_ge, List.getElem?_set_self']
    · simp [-List.getElem?_eq_getElem, List.getElem?_cons_zero, hilen, holen, get?_append_lt, get?_append_ge,
            List.getElem?_set_self', List.getElem?_set_ne hio,
            List.getElem?_set_ne (Ne.symm hio), hiT, hoT]
      intro hm
      exact ⟨mem_replaceId selfId s.ops.length iT.consumers hm,
             not_mem_replaceId selfId s.ops.length iT.consumers hselne⟩

/-- Witness for C1's amended claim at the concrete input-splice state: the
Reshape's input reference becomes the fresh tensor 2, the Transpose operator
1 lands in `pre` with the exchanged layout's permutation, and tensor 0's
consumer list holds the Transpose instead of the Reshape. -/
theorem reshape_transform_input_splice_witness :
    (∃ sf', exSpliceResult.ops[0]? = some sf' ∧ sf'.inputs[0]? = some 2 ∧
      sf'.pre = [1]) ∧
    (∃ tr, exSpliceResult.ops[1]? = some tr ∧ tr.type = OpType.Transpose ∧
      tr.attrs_perm = some [0, 2, 3, 1]) ∧
    (∃ iT', exSpliceResult.tensors[0]? = some iT' ∧ iT'.consumers = [1] ∧
      0 ∉ iT'.consumers) := by
  have h := reshape_transform_input_splice exSpliceState 0 exSpliceOp 0 1
      exSpliceIn exSpliceOut exLayout rfl rfl rfl rfl rfl rfl rfl rfl rfl
      (by decide) (by decide) (by decide) (by decide) exSpliceResult rfl
  obtain ⟨⟨sf', ha1, ha2, ha3⟩, -, -, ⟨tr, hb1, hb2, hb3, hb4⟩,
          ⟨iT', hc1, hc2, hc3⟩⟩ := h
  exact ⟨⟨sf', ha1, ha2, ha3⟩, ⟨tr, hb1, hb2, hb4⟩,
         ⟨iT', hc1, hc2, (hc3 (by decide)).2⟩⟩

/-! ## C4: the output-side Transpose splice -/

/-- C4: for every Parsed Reshape operator (not in fake-broadcasting mode)
whose output tensor declares a non-null layout, the output-side rewrite
mirrors the input-side splice: a synthetic tensor and a Transpose operator
are spliced between the Reshape and its original output tensor, the
Transpose is appended to the `post` list, and the Transpose is renamed with
the `TFLITE2ONNX_Transpose_` synthetic-name prefix, distinct from the
pre-side synthetic prefix `TFLITE2ONNX_Transposed_`. -/
theorem reshape_transform_output_splice
    (s : GState) (selfId : Nat) (sf : Operator) (iId oId : Nat)
    (iT oT : Tensor) (layo : Layout)
    (hs : s.ops[selfId]? = some sf)
    (htype : sf.type = OpType.Reshape)
    (hp : sf.status.parsed = true)
    (hfb : sf.forFakeBroadcasting = false)
    (hin : sf.inputs[0]? = some iId)
    (hout : sf.outputs[0]? = some oId)
    (hiT : s.tensors[iId]? = some iT)
    (hoT : s.tensors[oId]? = some oT)
    (hlayo : oT.layout = some layo)
    (hio : iId ≠ oId)
    (hf1 : lookupReg s.registery ("TFLITE2ONNX_Transposed_" ++ iT.name) = none)
    (hf2 : lookupReg s.registery ("TFLITE2ONNX_ToTranspose_" ++ oT.name) = none)
    (hnn : ("TFLITE2ONNX_Transposed_" ++ iT.name : String) ≠
           "TFLITE2ONNX_ToTranspose_" ++ oT.name) :
    ∀ s', Reshape.transform s selfId = .ok s' →
      (∃ sf', s'.ops[selfId]? = some sf' ∧
        sf'.outputs[0]? =
          some (if iT.layout.isSome then s.tensors.length + 1 else s.tensors.length) ∧
        sf'.post = sf.post ++
          [if iT.layout.isSome then s.ops.length + 1 else s.ops.length]) ∧
      (if iT.layout.isSome then s.tensors.length + 1 else s.tensors.length) ≠ oId ∧
      (∃ newT, s'.tensors[if iT.layout.isSome then s.tensors.length + 1
                          else s.tensors.length]? = some newT ∧
        newT.name = "TFLITE2ONNX_ToTranspose_" ++ oT.name ∧
        newT.producers = [selfId] ∧
        newT.consumers = [if iT.layout.isSome then s.ops.length + 1 else s.ops.length]) ∧
      (∃ tr, s'.ops[if iT.layout.isSome then s.ops.length + 1
                    else s.ops.length]? = some tr ∧
        tr.type = OpType.Transpose ∧ tr.index = -1 ∧
        tr.inputs = [if iT.layout.isSome then s.tensors.length + 1
                     else s.tensors.length] ∧
        tr.outputs = [oId] ∧
        tr.name = "TFLITE2ONNX_Transpose_" ++ oT.name) ∧
      ("TFLITE2ONNX_Transpose_" : String) ≠ "TFLITE2ONNX_Transposed_" ∧
      (∃ oT', s'.tensors[oId]? = some oT' ∧
        oT'.producers = replaceId selfId
          (if iT.layout.isSome then s.ops.length + 1 else s.ops.length)
          oT.producers) := by
  intro s' hE
  have hilen : iId < s.tensors.length := by
    rcases List.getElem?_eq_some_iff.mp hiT with ⟨h, -⟩
    exact h
  have holen : oId < s.tensors.length := by
    rcases List.getElem?_eq_some_iff.mp hoT with ⟨h, -⟩
    exact h
  have hsellen : selfId < s.ops.length := by
    rcases List.getElem?_eq_some_iff.mp hs with ⟨h, -⟩
    exact h
  have hiTg : s.tensors[iId] = iT := by
    rcases List.getElem?_eq_some_iff.mp hiT with ⟨h1, h2⟩
    exact h2
  have hoTg : s.tensors[oId] = oT := by
    rcases List.getElem?_eq_some_iff.mp hoT with ⟨h1, h2⟩
    exact h2
  have hsfg : s.ops[selfId] = sf := by
    rcases List.getElem?_eq_some_iff.mp hs with ⟨h1, h2⟩
    exact h2
  have hselne : s.ops.length ≠ selfId := Ne.symm (Nat.ne_of_lt hsellen)
  unfold Reshape.transform Reshape.spliceRewrite
    Reshape.preserveInputSpatialSemantic Reshape.preserveOutputSpatialSemantic
    getWithRef at hE
  cases hlayi : iT.layout with
  | none =>
    simp [-List.getElem?_eq_getElem, List.getElem?_cons_zero, hs, hp, hfb, hin,
          hout, hiT, hoT, hiTg, hoTg, hsfg, hlayi, hlayo, hf1, hf2, hnn, hio,
          Ne.symm hio, hilen, holen, hsellen, Tensor.init, Transpose.init,
          Tensor.addProducer, Tensor.addConsumer, lookupReg, get?_append_lt,
          get?_append_ge, set_append_lt, set_append_ge, List.set_set] at hE
    subst hE
    refine ⟨?_, by simp [hlayi]; exact Ne.symm (Nat.ne_of_lt holen), ?_, ?_,
            by decide, ?_⟩
    · simp [-List.getElem?_eq_getElem, List.getElem?_cons_zero, hlayi, hsellen,
            get?_append_lt, List.getElem?_set_self', hs,
            get?_replaceId oId s.tensors.length sf.outputs 0 hout]
    · simp [-List.getElem?_eq_getElem, List.getElem?_cons_zero, hlayi, holen,
            get?_append_lt, get?_append_ge]
    · simp [-List.getElem?_eq_getElem, List.getElem?_cons_zero, hlayi, hsellen,
            get?_append_lt, get?_append_ge, List.getElem?_set_self']
    · simp [-List.getElem?_eq_getElem, List.getElem?_cons_zero, hlayi, holen,
            get?_append_lt, List.getElem?_set_self', hoT]
  | some layi =>
    simp [-List.getElem?_eq_getElem, List.getElem?_cons_zero, hs, hp, hfb, hin,
          hout, hiT, hoT, hiTg, hoTg, hsfg, hlayi, hlayo, hf1, hf2, hnn, hio,
          Ne.symm hio, hilen, holen, hsellen, Tensor.init, Transpose.init,
          Tensor.addProducer, Tensor.addConsumer, lookupReg, get?_append_lt,
          get?_append_ge, set_append_lt, set_append_ge, List.set_set] at hE
    subst hE
    refine ⟨?_, by simp [hlayi]; omega, ?_, ?_, by decide, ?_⟩
    · simp [-List.getElem?_eq_getElem, List.getElem?_cons_zero, hlayi, hsellen,
            get?_append_lt, List.getElem?_set_self', hs,
            get?_replaceId oId (s.tensors.length + 1) sf.outputs 0 hout]
    · simp [-List.getElem?_eq_getElem, List.getElem?_cons_zero, hlayi, hilen,
            holen, get?_append_lt, get?_append_ge, List.getElem?_set_self',
            List.getElem?_set_ne hio, List.getElem?_set_ne (Ne.symm hio)]
    · simp [-List.getElem?_eq_getElem, List.getElem?_cons_zero, hlayi, hsellen,
            get?_append_lt, get?_append_ge, List.getElem?_set_self']
    · simp [-List.getElem?_eq_getElem, List.getElem?_cons_zero, hlayi, hilen,
            holen, get?_append_lt, List.getElem?_set_self',
            List.getElem?_set_ne hio, List.getElem?_set_ne (Ne.symm hio), hoT,
            hiT]

/-- Witness for C4 at the concrete output-splice state: the Reshape's output
reference becomes the fresh tensor 2, the renamed Transpose operator 1 lands
in `post` consuming the fresh tensor and producing the original output. -/
theorem reshape_transform_output_splice_witness :
    (∃ sf', exOutResult.ops[0]? = some sf' ∧ sf'.outputs[0]? = some 2 ∧
      sf'.post = [1]) ∧
    (∃ newT, exOutResult.tensors[2]? = some newT ∧
      newT.name = "TFLITE2ONNX_ToTranspose_oo" ∧ newT.producers = [0] ∧
      newT.consumers = [1]) ∧
    (∃ tr, exOutResult.ops[1]? = some tr ∧ tr.type = OpType.Transpose ∧
      tr.inputs = [2] ∧ tr.outputs = [1] ∧
      tr.name = "TFLITE2ONNX_Transpose_oo") := by
  have h := reshape_transform_output_splice exOutState 0 exSpliceOp 0 1
      exOutIn exOutOut exLayout rfl rfl rfl rfl rfl rfl rfl rfl rfl
      (by decide) (by decide) (by decide) (by decide) exOutResult rfl
  obtain ⟨⟨sf', ha1, ha2, ha3⟩, -, ⟨newT, hb1, hb2, hb3, hb4⟩,
          ⟨tr, hc1, hc2, hc3, hc4, hc5, hc6⟩, -, -⟩ := h
  exact ⟨⟨sf', ha1, ha2, ha3⟩, ⟨newT, hb1, hb2, hb3, hb4⟩,
         ⟨tr, hc1, hc2, hc4, hc5, hc6⟩⟩
